import Mathlib

set_option maxRecDepth 100000

/-!
Verification of the meeting-intelligence processing pipeline.

This file gives a shallow embedding, in Lean, of the pure core of the
pipeline's Python sources:

* `src/audio_chunker/lambda_function.py` — the chunk planning loop;
* `src/transcriber/lambda_function.py` and
  `src/summarizer/lambda_function.py` — the per-call bounded-retry loops
  and the stage-level success/failure result shape;
* `src/summarizer/lambda_function.py` — the summary-response parsing
  (`parse_summary_response`);
* `src/result_combiner/lambda_function.py` — action-item deduplication
  (`deduplicate_action_items`), narrative combination, metric
  aggregation, and the no-successful-summaries failure;
* `src/failure_handler/lambda_function.py` — the error-stage
  classification written into the job record.

Machine floats from the sources are modelled as exact rationals (`ℚ`);
Python integer arithmetic as `Nat`; Python strings as Lean `String`
with the Python `str` methods re-implemented over `String.data`
(lists of characters) so that every definition evaluates inside the
kernel.  I/O (S3, DynamoDB, subprocess, HTTP) is out of scope: the
functions below model the data transformations the handlers perform
between those calls, with external call outcomes passed in as values.
-/

/-! ### Python string primitives

Each primitive mirrors the semantics of the corresponding Python `str`
method for the (ASCII) inputs the pipeline manipulates.
-/

/-- Python `s.startswith(pat)` on character lists. -/
def listStartsWith : List Char → List Char → Bool
  | _, [] => true
  | [], _ :: _ => false
  | c :: cs, p :: ps => c == p && listStartsWith cs ps

/-- Python `pat in s` (substring containment) on character lists. -/
def listContains (pat : List Char) : List Char → Bool
  | [] => listStartsWith [] pat
  | c :: t => listStartsWith (c :: t) pat || listContains pat t

/-- Python `s.split(sep)` for a non-empty separator, on character lists.
The first argument is fuel, always called with at least the length of
the string so that it never runs out. -/
def listSplitAux (sep : List Char) : Nat → List Char → List Char → List (List Char)
  | 0, acc, rest => [acc.reverse ++ rest]
  | fuel + 1, acc, rest =>
    match rest with
    | [] => [acc.reverse]
    | c :: t =>
      if listStartsWith rest sep then
        acc.reverse :: listSplitAux sep fuel [] (rest.drop sep.length)
      else
        listSplitAux sep fuel (c :: acc) t

/-- Python `s.replace(old, new)` (all non-overlapping occurrences,
left to right), on character lists, fuelled like `listSplitAux`. -/
def listReplaceAux (old new : List Char) : Nat → List Char → List Char
  | 0, rest => rest
  | fuel + 1, rest =>
    match rest with
    | [] => []
    | c :: t =>
      if listStartsWith rest old then
        new ++ listReplaceAux old new fuel (rest.drop old.length)
      else
        c :: listReplaceAux old new fuel t

/-- Python `s.strip()` on character lists (whitespace at both ends). -/
def listTrim (l : List Char) : List Char :=
  ((l.dropWhile Char.isWhitespace).reverse.dropWhile Char.isWhitespace).reverse

/-- Python `s.split(sep)` for non-empty `sep`. -/
def pySplit (s sep : String) : List String :=
  (listSplitAux sep.data (s.data.length + 1) [] s.data).map String.mk

/-- Python `s.replace(old, new)` for non-empty `old`. -/
def pyReplace (s old new : String) : String :=
  String.mk (listReplaceAux old.data new.data (s.data.length + 1) s.data)

/-- Python `s.strip()`. -/
def pyStrip (s : String) : String :=
  String.mk (listTrim s.data)

/-- Python `s.startswith(pat)`. -/
def pyStartsWith (s pat : String) : Bool :=
  listStartsWith s.data pat.data

/-- Python `pat in s`. -/
def strContains (s pat : String) : Bool :=
  listContains pat.data s.data

/-- Python `s.lower()` (ASCII range, which covers every string the
pipeline lowercases). -/
def pyLower (s : String) : String :=
  String.mk (s.data.map Char.toLower)

/-- Python `s.lstrip(chars)` for the bullet-marker set `'-•'` used by
the summary parser. -/
def pyLstripBullets (s : String) : String :=
  String.mk (s.data.dropWhile (fun c => c == '-' || c == '•'))

/-- Python `sep.join(parts)`. -/
def pyJoin (sep : String) (parts : List String) : String :=
  String.mk (List.intercalate sep.data (parts.map String.data))

/-! ### Chunk planner

From `src/audio_chunker/lambda_function.py`, `lambda_handler`
(lines 83–155).  `CHUNK_DURATION` and `OVERLAP_DURATION` are the
environment defaults (600 s and 30 s).  The handler computes
`num_chunks = ceil(D / CHUNK_DURATION)` and then, for each index `i`,
a start offset (`0` for `i = 0`, else `i * CHUNK_DURATION -
OVERLAP_DURATION`), a duration `min(CHUNK_DURATION, D - start)`, and
skips the chunk when that duration is below 10 seconds.  Durations are
modelled as naturals (the metadata records integral seconds). -/

def CHUNK_DURATION : Nat := 600

def OVERLAP_DURATION : Nat := 30

/-- Start offset of chunk `i` (line 95–98 of the chunker). -/
def chunkStart (i : Nat) : Nat :=
  if i = 0 then 0 else i * CHUNK_DURATION - OVERLAP_DURATION

/-- Duration of chunk `i` for total duration `D` (lines 100–102). -/
def chunkDuration (D i : Nat) : Nat :=
  min CHUNK_DURATION (D - chunkStart i)

/-- `num_chunks = math.ceil(D / CHUNK_DURATION)` (line 85). -/
def numChunks (D : Nat) : Nat :=
  (D + CHUNK_DURATION - 1) / CHUNK_DURATION

/-- The list of `(start_time, end_time)` windows the chunker emits
(`end_time = start_time + duration`, line 152); chunks shorter than
10 seconds are skipped (lines 104–107). -/
def planChunks (D : Nat) : List (Nat × Nat) :=
  ((List.range (numChunks D)).filter (fun i => decide (10 ≤ chunkDuration D i))).map
    (fun i => (chunkStart i, chunkStart i + chunkDuration D i))

/-! ### Bounded retry loops (transcriber and summarizer)

From `src/transcriber/lambda_function.py`, `transcribe_audio`
(lines 38–85) and `src/summarizer/lambda_function.py`,
`generate_summary` (lines 89–126).  Both run
`for attempt in range(max_retries)` with `max_retries = 3`,
`retry_delay = 2`; on an exception they classify the error message by
substring, and when the classification allows a retry and
`attempt < max_retries - 1` they sleep `retry_delay * 2 ** attempt`
and continue; then they re-raise only when `attempt == max_retries - 1`.
An attempt's provider call outcome is passed in as a value.  The loop
is modelled with fuel `max_retries - attempt`, which makes it exactly
Python's `range`-bounded loop. -/

/-- Outcome of one provider call attempt: a payload or the text of the
raised exception (`str(e)`). -/
inductive CallOutcome where
  | ok (value : String)
  | fail (message : String)
deriving DecidableEq

deriving instance DecidableEq for Except

/-- What one run of a retry loop did: how many provider calls were
made, which backoff sleeps were performed (in seconds, in order), and
the final outcome (`Except.error` models the exception escaping the
loop). -/
structure RetryTrace where
  attempts : Nat
  sleeps : List Nat
  result : Except String String
deriving DecidableEq

def maxRetries : Nat := 3

def retryDelay : Nat := 2

/-- Error classification of `transcribe_audio` (lines 65 and 73):
rate-limit when the message contains `'429'` or, lowercased,
`'rate_limit'`; otherwise transient server fault when it contains one
of `'500'`, `'502'`, `'503'`, `'504'`, `'timeout'`.  Both classes are
retried identically, so the classifier returns a single Bool. -/
def transcriberRetryable (msg : String) : Bool :=
  if strContains msg "429" || strContains (pyLower msg) "rate_limit" then true
  else if ["500", "502", "503", "504", "timeout"].any (fun code => strContains msg code) then true
  else false

/-- Error classification of `generate_summary` (lines 115–116): one
combined condition, and — unlike the transcriber — `'timeout'` is not
in the retryable set. -/
def summarizerRetryable (msg : String) : Bool :=
  strContains msg "429" || strContains (pyLower msg) "rate_limit" ||
    ["500", "502", "503", "504"].any (fun code => strContains msg code)

/-- One retry loop, shared by both stages (the two loops are
line-for-line the same shape).  `attempt` is the current 0-based
attempt index and `fuel = maxRetries - attempt` the number of loop
iterations left.  Mirrors the Python control flow exactly: a
retryable error with `attempt < max_retries - 1` sleeps and continues;
otherwise the exception is re-raised only if `attempt ==
max_retries - 1`, else the loop silently moves to the next attempt.
The fuel-exhausted value models the (unreachable for `maxRetries ≥ 1`)
`raise RuntimeError` after the loop. -/
def runRetryAux (retryable : String → Bool) (outcomes : Nat → CallOutcome) :
    Nat → Nat → RetryTrace
  | _, 0 => { attempts := 0, sleeps := [], result := Except.error "loop exhausted" }
  | attempt, fuel + 1 =>
    match outcomes attempt with
    | CallOutcome.ok v => { attempts := 1, sleeps := [], result := Except.ok v }
    | CallOutcome.fail msg =>
      if retryable msg && decide (attempt < maxRetries - 1) then
        let rest := runRetryAux retryable outcomes (attempt + 1) fuel
        { attempts := rest.attempts + 1,
          sleeps := retryDelay * 2 ^ attempt :: rest.sleeps,
          result := rest.result }
      else if attempt = maxRetries - 1 then
        { attempts := 1, sleeps := [], result := Except.error msg }
      else
        let rest := runRetryAux retryable outcomes (attempt + 1) fuel
        { attempts := rest.attempts + 1, sleeps := rest.sleeps, result := rest.result }

/-- `transcribe_audio`'s retry loop over the given per-attempt call
outcomes. -/
def transcribeAudioLoop (outcomes : Nat → CallOutcome) : RetryTrace :=
  runRetryAux transcriberRetryable outcomes 0 maxRetries

/-- `generate_summary`'s retry loop over the given per-attempt call
outcomes. -/
def generateSummaryLoop (outcomes : Nat → CallOutcome) : RetryTrace :=
  runRetryAux summarizerRetryable outcomes 0 maxRetries

/-- The stage-level result shape: `status` plus an optional `error`
message, as built by the handlers' `except` blocks. -/
structure StageResult where
  status : String
  error : Option String
deriving DecidableEq

/-- The transcriber's `lambda_handler` boundary (lines 193–204): a
transcription success yields `status = 'success'`; any exception —
including the one re-raised by the retry loop — is caught and turned
into `{'status': 'failed', 'error': str(e)}` rather than re-raised. -/
def transcriberHandler (outcomes : Nat → CallOutcome) : StageResult :=
  match (transcribeAudioLoop outcomes).result with
  | Except.ok _ => { status := "success", error := none }
  | Except.error e => { status := "failed", error := some e }

/-- The summarizer's `lambda_handler` boundary (lines 277–288), same
catch-all shape as the transcriber's. -/
def summarizerHandler (outcomes : Nat → CallOutcome) : StageResult :=
  match (generateSummaryLoop outcomes).result with
  | Except.ok _ => { status := "success", error := none }
  | Except.error e => { status := "failed", error := some e }

/-! ### Similarity ratio

`src/result_combiner/lambda_function.py` line 31 computes
`SequenceMatcher(None, a.lower(), b.lower()).ratio()`.
`SequenceMatcher` is the Python standard library's `difflib` (external
to this repository).  Modelled from the spec: §4.6 describes it as a
"normalized similarity … (case-insensitive longest-common-subsequence-
block ratio, e.g. Ratcliff/Obershelp)".  The definitions below follow
difflib's documented algorithm — repeatedly take the longest matching
block (earliest in `a`, then earliest in `b`, on ties), recurse on
both sides, and return `2 * M / (len(a) + len(b))` where `M` is the
total matched length — computed in exact rationals instead of machine
floats.  The junk heuristics are the identity here: no junk argument
is passed and both texts are far below the 200-character autojunk
threshold. -/

/-- All indices of `c` in `b`, ascending (difflib's `b2j`). -/
def charPositions (c : Char) (b : List Char) : List Nat :=
  (b.enum.filter (fun p => p.2 == c)).map Prod.fst

/-- One row of difflib's `find_longest_match` dynamic program: extend
the per-`j` match lengths of the previous row (`old`) across the
occurrence positions `js` of `a[i]` in `b`, updating the best block,
which is replaced only on strictly larger length `k`. -/
def flmRow (old : Nat → Nat) (i : Nat) (js : List Nat)
    (best : Nat × Nat × Nat) : (Nat → Nat) × (Nat × Nat × Nat) :=
  js.foldl
    (fun st j =>
      let k := (if j = 0 then 0 else old (j - 1)) + 1
      let updated := fun j0 => if j0 = j then k else st.1 j0
      let best2 := if st.2.2.2 < k then (i + 1 - k, j + 1 - k, k) else st.2
      (updated, best2))
    ((fun _ => 0), best)

/-- difflib's `find_longest_match` on the window
`a[alo:ahi]`, `b[blo:bhi]`: returns `(besti, bestj, bestsize)`. -/
def findLongestMatch (a b : List Char) (alo ahi blo bhi : Nat) : Nat × Nat × Nat :=
  ((List.range (ahi - alo)).map (fun d => alo + d)).foldl
    (fun st i =>
      let js := (charPositions (a.getD i ' ') b).filter
        (fun j => decide (blo ≤ j) && decide (j < bhi))
      flmRow st.1 i js st.2)
    ((fun _ => 0), (alo, blo, 0))
  |>.2

/-- Total size of difflib's matching blocks on a window, by the
recursive decomposition of `get_matching_blocks` (the queue there
yields the same block set; merging adjacent blocks preserves the
total).  Fuelled: each recursive call strictly shrinks the combined
window size, so fuel `len(a) + len(b) + 1` never runs out. -/
def matchedTotalAux (a b : List Char) : Nat → Nat × Nat × Nat × Nat → Nat
  | 0, _ => 0
  | fuel + 1, (alo, ahi, blo, bhi) =>
    let m := findLongestMatch a b alo ahi blo bhi
    if m.2.2 = 0 then 0
    else
      matchedTotalAux a b fuel (alo, m.1, blo, m.2.1) + m.2.2 +
        matchedTotalAux a b fuel (m.1 + m.2.2, ahi, m.2.1 + m.2.2, bhi)

/-- `M`: the total number of matched characters between `a` and `b`. -/
def matchedTotal (a b : List Char) : Nat :=
  matchedTotalAux a b (a.length + b.length + 1) (0, a.length, 0, b.length)

/-- difflib's `ratio()`: `2 * M / (len(a) + len(b))` as an exact
rational (`1` on two empty sequences, as in difflib). -/
def ratioQ (a b : String) : ℚ :=
  if a.data.length + b.data.length = 0 then 1
  else mkRat (2 * matchedTotal a.data b.data) (a.data.length + b.data.length)

/-- `similarity(a, b)` from `src/result_combiner/lambda_function.py`
lines 29–31: the ratio of the lowercased strings. -/
def similarity (a b : String) : ℚ :=
  ratioQ (pyLower a) (pyLower b)

/-! ### Action items and deduplication

From `src/result_combiner/lambda_function.py`,
`deduplicate_action_items` (lines 34–66).  An action item is the dict
built by the summarizer's parser (`action`, `owner`, `due_date`) plus
the keys the combiner may add (`mentioned_at`, `chunk_id`); `Option`
models key absence. -/

structure ActionItem where
  action : String
  owner : String
  due_date : String
  mentioned_at : Option String
  chunk_id : Option Nat
deriving DecidableEq

/-- `similarity_threshold = 0.8` (line 40), as an exact rational. -/
def similarityThreshold : ℚ := mkRat 4 5

/-- The in-place merge performed on a duplicate (lines 50–59): fill
`owner` (resp. `due_date`) from the incoming item only when the
incoming value is non-default and the accepted value is still the
default; add `mentioned_at` only when the incoming item has it and the
accepted item does not. -/
def mergeInto (existing item : ActionItem) : ActionItem :=
  let e1 := if item.owner ≠ "Unassigned" ∧ existing.owner = "Unassigned" then
    { existing with owner := item.owner } else existing
  let e2 := if item.due_date ≠ "Not specified" ∧ e1.due_date = "Not specified" then
    { e1 with due_date := item.due_date } else e1
  if item.mentioned_at.isSome ∧ e2.mentioned_at = none then
    { e2 with mentioned_at := item.mentioned_at } else e2

/-- One step of the dedup loop (lines 42–63): scan the accepted list
in order; at the first accepted item whose similarity with the
incoming action text strictly exceeds the threshold, merge and stop
(`break`); if no accepted item exceeds it, append the incoming item. -/
def insertActionItem : List ActionItem → ActionItem → List ActionItem
  | [], item => [item]
  | existing :: rest, item =>
    if similarityThreshold < similarity item.action existing.action then
      mergeInto existing item :: rest
    else
      existing :: insertActionItem rest item

/-- `deduplicate_action_items` (lines 34–66). -/
def deduplicate_action_items (all_action_items : List ActionItem) : List ActionItem :=
  all_action_items.foldl insertActionItem []

/-! ### Summary-response parsing

From `src/summarizer/lambda_function.py`, `parse_summary_response`
(lines 129–185). -/

structure ParsedSummary where
  summary : String
  action_items : List ActionItem
deriving DecidableEq

/-- The dict initialised at lines 156–160 before field parsing. -/
def defaultActionItem : ActionItem :=
  { action := "", owner := "Unassigned", due_date := "Not specified",
    mentioned_at := none, chunk_id := none }

/-- One pipe-delimited field (lines 163–170): strip it, then fill
`action` / `owner` / `due_date` from an `Action:` / `Owner:` / `Due:`
marker, dropping the marker text and stripping the remainder. -/
def parseFieldStep (d : ActionItem) (part : String) : ActionItem :=
  let pt := pyStrip part
  if pyStartsWith pt "Action:" then { d with action := pyStrip (pyReplace pt "Action:" "") }
  else if pyStartsWith pt "Owner:" then { d with owner := pyStrip (pyReplace pt "Owner:" "") }
  else if pyStartsWith pt "Due:" then { d with due_date := pyStrip (pyReplace pt "Due:" "") }
  else d

/-- The field loop over one action-item line's `'|'`-split parts. -/
def parseFields (parts : List String) : ActionItem :=
  parts.foldl parseFieldStep defaultActionItem

/-- One line of the action-items section (lines 150–173): only lines
beginning (after stripping) with a bullet marker produce an item, the
bullet characters are stripped, the fields parsed, and a line whose
resulting action text is empty is dropped (`None` here). -/
def parseActionLine (line : String) : Option ActionItem :=
  let l := pyStrip line
  if pyStartsWith l "-" || pyStartsWith l "•" then
    let core := pyStrip (pyLstripBullets l)
    let d := parseFields (pySplit core "|")
    if d.action ≠ "" then some d else none
  else none

/-- `parse_summary_response` (lines 129–185): split on the literal
section marker; any split arity other than 2 falls back to the whole
response as summary with no action items (same fallback the
`except` arm produces); a section equal to `'none'` lowercased yields
no items; otherwise each newline-separated line goes through
`parseActionLine`. -/
def parse_summary_response (response_text : String) : ParsedSummary :=
  match pySplit response_text "ACTION ITEMS:" with
  | [p0, p1] =>
    let summary_part := pyStrip (pyReplace p0 "SUMMARY:" "")
    let aip := pyStrip p1
    let items :=
      if pyLower aip = "none" then []
      else (pySplit aip "\n").filterMap parseActionLine
    { summary := summary_part, action_items := items }
  | _ => { summary := response_text, action_items := [] }

/-! ### Result combination

From `src/result_combiner/lambda_function.py`, `lambda_handler`
(lines 80–322).  The S3 indirection is flattened: a summary entry
carries both the workflow-event fields (`chunk_id`, `status`, and the
metric fields the combiner reads with `.get(key, 0)`) and the fields
of the S3 summary document it references (`time_range`, `summary`,
`action_items`).  DynamoDB meeting metadata and upload calls are out
of scope. -/

structure TranscriptEntry where
  status : String
  cost : Option ℚ
  processing_time_seconds : Option ℚ
deriving DecidableEq

structure SummaryEntry where
  chunk_id : Nat
  status : String
  time_range : String
  summary : String
  action_items : List ActionItem
  cost : Option ℚ
  prompt_tokens : Option Nat
  completion_tokens : Option Nat
  processing_time_seconds : Option ℚ
deriving DecidableEq

/-- Stable insertion of `x` after every element `y` with `le y x`:
a later-arriving element lands after all equal-key elements. -/
def insertSortedBy (le : α → α → Bool) (x : α) : List α → List α
  | [] => [x]
  | y :: ys => if le y x then y :: insertSortedBy le x ys else x :: y :: ys

/-- Python's `list.sort` (Timsort) is a stable ascending sort; for a
total preorder its output is uniquely determined by sortedness plus
stability, which this left-to-right insertion sort realises. -/
def stableSortBy (le : α → α → Bool) (l : List α) : List α :=
  l.foldl (fun acc x => insertSortedBy le x acc) []

/-- The sort key of line 105: `key=lambda x: x.get('chunk_id', 0)`. -/
def chunkLe (a b : SummaryEntry) : Bool :=
  decide (a.chunk_id ≤ b.chunk_id)

/-- Line 98: keep only `status == 'success'` entries. -/
def successfulSummaries (summaries : List SummaryEntry) : List SummaryEntry :=
  summaries.filter (fun s => s.status == "success")

/-- Lines 98–105: the successful summaries, sorted by chunk index. -/
def successfulSorted (summaries : List SummaryEntry) : List SummaryEntry :=
  stableSortBy chunkLe (successfulSummaries summaries)

/-- One narrative entry (line 179): `"[time_range] summary_text"`. -/
def renderSummary (s : SummaryEntry) : String :=
  "[" ++ s.time_range ++ "] " ++ s.summary

/-- Lines 174–181: the combined narrative, joined with blank lines. -/
def combinedNarrative (sorted : List SummaryEntry) : String :=
  pyJoin "\n\n" (sorted.map renderSummary)

/-- `acc + x.get(key, 0)` summation over a list, for rational and for
integer metrics. -/
def sumOptQ (f : α → Option ℚ) (l : List α) : ℚ :=
  l.foldl (fun acc x => acc + ((f x).getD 0)) 0

def sumOptNat (f : α → Option Nat) (l : List α) : Nat :=
  l.foldl (fun acc x => acc + ((f x).getD 0)) 0

/-- Python `round(x, n)`, in exact rationals.  (Python rounds exact
midpoints to even; no claim exercises a midpoint, and away-from-zero
floor rounding agrees with float rounding everywhere else at this
scale.) -/
def roundTo (n : Nat) (x : ℚ) : ℚ :=
  mkRat (Rat.floor (x * mkRat (10 ^ n) 1 + mkRat 1 2)) (10 ^ n)

/-- Lines 143–147: every action item of a summary document gets the
document's `time_range` as `mentioned_at` and the entry's chunk index
as `chunk_id` before deduplication. -/
def collectActionItems (sorted : List SummaryEntry) : List ActionItem :=
  sorted.flatMap (fun s => s.action_items.map
    (fun a => { a with mentioned_at := some s.time_range, chunk_id := some s.chunk_id }))

/-- The final-result record assembled at lines 204–229 (job metadata
fields from DynamoDB omitted). -/
structure FinalResult where
  final_summary : String
  action_items : List ActionItem
  total_chunks_processed : Nat
  transcription_cost : ℚ
  summarization_cost : ℚ
  total_cost : ℚ
  prompt_tokens : Nat
  completion_tokens : Nat
  total_tokens : Nat
  transcription_time_seconds : ℚ
  summarization_time_seconds : ℚ
  total_processing_time_seconds : ℚ
deriving DecidableEq

/-- The success path of the combiner (once at least one successful
summary exists): sort, aggregate transcription metrics over successful
transcript results (lines 116–120), aggregate summarization metrics
read from the summary entries with default 0 (lines 137–141), build
the narrative and the deduplicated action-item list, and assemble the
final result. -/
def combineOkResult (transcripts : List TranscriptEntry) (summaries : List SummaryEntry) :
    FinalResult :=
  let sorted := successfulSorted summaries
  let successfulTs := transcripts.filter (fun t => t.status == "success")
  let ttc := sumOptQ TranscriptEntry.cost successfulTs
  let ttt := sumOptQ TranscriptEntry.processing_time_seconds successfulTs
  let tsc := sumOptQ SummaryEntry.cost sorted
  let tpt := sumOptNat SummaryEntry.prompt_tokens sorted
  let tct := sumOptNat SummaryEntry.completion_tokens sorted
  let tst := sumOptQ SummaryEntry.processing_time_seconds sorted
  { final_summary := combinedNarrative sorted
    action_items := deduplicate_action_items (collectActionItems sorted)
    total_chunks_processed := sorted.length
    transcription_cost := roundTo 4 ttc
    summarization_cost := roundTo 4 tsc
    total_cost := roundTo 4 (ttc + tsc)
    prompt_tokens := tpt
    completion_tokens := tct
    total_tokens := tpt + tct
    transcription_time_seconds := roundTo 1 ttt
    summarization_time_seconds := roundTo 1 tst
    total_processing_time_seconds := roundTo 1 (ttt + tst) }

/-- The pure core of the combiner's `lambda_handler`: filter to
successes, fail with `ValueError('No successful summaries to
combine')` when none remain (lines 101–102), otherwise produce the
final result. -/
def combineResult (transcripts : List TranscriptEntry) (summaries : List SummaryEntry) :
    Except String FinalResult :=
  if (successfulSummaries summaries).isEmpty then
    Except.error "No successful summaries to combine"
  else
    Except.ok (combineOkResult transcripts summaries)

/-- The summarizer's success-path stage result (lines 264–272 of
`src/summarizer/lambda_function.py`), as the combiner sees it: the
returned dict has keys `chunk_id`, `meeting_id`, `summary_s3_path`,
`summary_s3_bucket`, `time_range`, `action_items_count`, `status` and
nothing else — in particular no `cost`, `prompt_tokens`,
`completion_tokens` or `processing_time_seconds` keys, so those are
`none`; the S3 document fields it references are inlined. -/
def summarizerSuccessEntry (chunk_id : Nat) (time_range summary : String)
    (items : List ActionItem) : SummaryEntry :=
  { chunk_id := chunk_id, status := "success", time_range := time_range,
    summary := summary, action_items := items, cost := none,
    prompt_tokens := none, completion_tokens := none,
    processing_time_seconds := none }

/-! ### Failure routing

From `src/failure_handler/lambda_function.py`, `lambda_handler`
(lines 84–99): the failing stage is classified by which upstream
outputs are present in the workflow event. -/

/-- The `error_stage` chain of the failure handler. -/
def classifyErrorStage (hasDownload hasAudio hasChunk hasTranscripts hasSummaries hasFinal : Bool) :
    String :=
  if !hasDownload then "video_download"
  else if !hasAudio then "audio_extraction"
  else if !hasChunk then "audio_chunking"
  else if !hasTranscripts then "transcription"
  else if !hasSummaries then "summarization"
  else if !hasFinal then "result_combination"
  else "notification"

/-- Modelled from the spec: the workflow orchestrator sequencing the
stages is external (spec §1, §7).  Per §7's propagation policy, a
merge-stage exception (the combiner re-raises after writing
`status = 'failed'`, lines 302–322) reaches the Failure Router with a
workflow state holding every upstream output but no `finalResult`,
while a merge success ends the job `completed` (lines 247–263).  This
composes the two handlers into the job record's terminal
`(status, error_stage)` after the merge stage. -/
def jobRecordAfterMerge (transcripts : List TranscriptEntry) (summaries : List SummaryEntry) :
    String × Option String :=
  match combineResult transcripts summaries with
  | Except.ok _ => ("completed", none)
  | Except.error _ => ("failed", some (classifyErrorStage true true true true true false))

/-! ### Concrete sample data

Concrete inputs used by witnesses and counterexamples. -/

/-- First-accepted action item of the dedup counterexample. -/
def dedupItemA : ActionItem :=
  { action := "send the deck", owner := "Unassigned", due_date := "Not specified",
    mentioned_at := none, chunk_id := none }

/-- Second-accepted action item of the dedup counterexample (its
similarity with `dedupItemA` is ≤ 0.8, so both are accepted). -/
def dedupItemB : ActionItem :=
  { action := "send the deck out now", owner := "Unassigned", due_date := "Not specified",
    mentioned_at := none, chunk_id := none }

/-- Incoming duplicate: similar to both accepted items (more similar
to `dedupItemB`), carrying a non-default owner. -/
def dedupItemC : ActionItem :=
  { action := "send the deck out", owner := "Sarah", due_date := "Not specified",
    mentioned_at := none, chunk_id := none }

/-- An action item not similar to `dedupItemA`. -/
def dedupItemUnrelated : ActionItem :=
  { action := "book a conference room", owner := "Unassigned", due_date := "Not specified",
    mentioned_at := none, chunk_id := none }

def sampleFailedSummary : SummaryEntry :=
  { chunk_id := 0, status := "failed", time_range := "00:00 - 10:00", summary := "",
    action_items := [], cost := none, prompt_tokens := none, completion_tokens := none,
    processing_time_seconds := none }

def sampleSuccessSummary : SummaryEntry :=
  { chunk_id := 1, status := "success", time_range := "09:30 - 19:30",
    summary := "Roadmap review.", action_items := [], cost := none, prompt_tokens := none,
    completion_tokens := none, processing_time_seconds := none }

/-- A summary entry exactly as the summarizer's success path emits it. -/
def sampleProducedEntry : SummaryEntry :=
  summarizerSuccessEntry 0 "00:00 - 10:00" "Quiet segment." []

def orderEntry0 : SummaryEntry :=
  { chunk_id := 0, status := "success", time_range := "00:00 - 10:00", summary := "First.",
    action_items := [], cost := none, prompt_tokens := none, completion_tokens := none,
    processing_time_seconds := none }

def orderEntry1 : SummaryEntry :=
  { chunk_id := 1, status := "success", time_range := "09:30 - 19:30", summary := "Second.",
    action_items := [], cost := none, prompt_tokens := none, completion_tokens := none,
    processing_time_seconds := none }

def orderEntry2 : SummaryEntry :=
  { chunk_id := 2, status := "success", time_range := "19:00 - 25:00", summary := "Third.",
    action_items := [], cost := none, prompt_tokens := none, completion_tokens := none,
    processing_time_seconds := none }

/-! ## Helper lemmas -/

theorem chunkStart_zero : chunkStart 0 = 0 := rfl

theorem chunkStart_of_ne (i : Nat) (h : i ≠ 0) : chunkStart i = i * 600 - 30 := by
  simp [chunkStart, h, CHUNK_DURATION, OVERLAP_DURATION]

theorem chunkDuration_eq (D i : Nat) : chunkDuration D i = min 600 (D - chunkStart i) := by
  simp [chunkDuration, CHUNK_DURATION]

theorem numChunks_eq (D : Nat) : numChunks D = (D + 599) / 600 := by
  simp [numChunks, CHUNK_DURATION]

/-- For `D ≥ 10` no candidate chunk is skipped, so the plan is the
plain image of the index range. -/
theorem planChunks_eq_map (D : Nat) (h10 : 10 ≤ D) :
    planChunks D = (List.range (numChunks D)).map
      (fun i => (chunkStart i, chunkStart i + chunkDuration D i)) := by
  unfold planChunks
  congr 1
  apply List.filter_eq_self.mpr
  intro i hi
  rw [List.mem_range, numChunks_eq] at hi
  rw [decide_eq_true_iff, chunkDuration_eq]
  by_cases h0 : i = 0
  · subst h0
    rw [chunkStart_zero]
    omega
  · rw [chunkStart_of_ne i h0]
    omega

theorem planChunks_get (D : Nat) (h10 : 10 ≤ D) (j : Nat) (hj : j < (planChunks D).length) :
    (planChunks D).get ⟨j, hj⟩ = (chunkStart j, chunkStart j + chunkDuration D j) := by
  have hm := planChunks_eq_map D h10
  rw [List.get_eq_getElem]
  simp only [hm, List.getElem_map, List.getElem_range]

theorem planChunks_length (D : Nat) (h10 : 10 ≤ D) :
    (planChunks D).length = numChunks D := by
  rw [planChunks_eq_map D h10, List.length_map, List.length_range]

/-! ## Claims about the chunk planner -/

/-- Claim C1, corrected.  The claim as frozen is false (see
`C1_counterexample`): on the code, adjacent windows beyond the first
pair do not overlap at all, and for durations below 10 s or with
`D mod L = 0` or `D mod L > L − O` the tail of `[0, D)` is not
covered.  Amended statement: for every `D ≥ 10` such that `D ≤ L` or
`0 < D mod L ≤ L − O` (with `L = 600`, `O = 30`), the emitted windows
cover `[0, D)` with no gap, each window starts at or before the end of
the previous one — by exactly `O` seconds before it for the first
adjacent pair and exactly at it (zero overlap) for every later pair —
and the last emitted window's end offset equals `D`. -/
theorem C1_planner_coverage (D : Nat) (h10 : 10 ≤ D)
    (hrem : D ≤ CHUNK_DURATION ∨
      (0 < D % CHUNK_DURATION ∧ D % CHUNK_DURATION ≤ CHUNK_DURATION - OVERLAP_DURATION)) :
    (∀ t, t < D → ∃ p, p ∈ planChunks D ∧ p.1 ≤ t ∧ t < p.2)
    ∧ (∀ i, ∀ h : i + 1 < (planChunks D).length,
        ((planChunks D).get ⟨i + 1, h⟩).1 ≤ ((planChunks D).get ⟨i, Nat.lt_of_succ_lt h⟩).2
        ∧ ((planChunks D).get ⟨i, Nat.lt_of_succ_lt h⟩).2 - ((planChunks D).get ⟨i + 1, h⟩).1
            = if i = 0 then OVERLAP_DURATION else 0)
    ∧ Option.map Prod.snd (planChunks D).getLast? = some D := by
  have hmap := planChunks_eq_map D h10
  simp only [CHUNK_DURATION, OVERLAP_DURATION] at hrem
  refine ⟨?_, ?_, ?_⟩
  · intro t ht
    by_cases h6 : t < 600
    · refine ⟨(chunkStart 0, chunkStart 0 + chunkDuration D 0), ?_, ?_, ?_⟩
      · rw [hmap]
        refine List.mem_map_of_mem _ (List.mem_range.mpr ?_)
        rw [numChunks_eq]
        omega
      · rw [chunkStart_zero]
        omega
      · rw [chunkStart_zero, chunkDuration_eq, chunkStart_zero]
        omega
    · refine ⟨(chunkStart ((t + 30) / 600), chunkStart ((t + 30) / 600)
          + chunkDuration D ((t + 30) / 600)), ?_, ?_, ?_⟩
      · rw [hmap]
        refine List.mem_map_of_mem _ (List.mem_range.mpr ?_)
        rw [numChunks_eq]
        omega
      · rw [chunkStart_of_ne _ (by omega)]
        omega
      · rw [chunkDuration_eq, chunkStart_of_ne _ (by omega)]
        omega
  · intro i h
    have hlen : (planChunks D).length = numChunks D := planChunks_length D h10
    rw [planChunks_get D h10 (i + 1) h, planChunks_get D h10 i (Nat.lt_of_succ_lt h)]
    rw [hlen, numChunks_eq] at h
    rw [chunkDuration_eq, chunkDuration_eq, chunkStart_of_ne (i + 1) (by omega)]
    by_cases h0 : i = 0
    · subst h0
      rw [chunkStart_zero, if_pos rfl]
      simp only [OVERLAP_DURATION]
      omega
    · rw [chunkStart_of_ne i h0, if_neg h0]
      omega
  · have hn1 : 1 ≤ numChunks D := by rw [numChunks_eq]; omega
    obtain ⟨m, hm⟩ : ∃ m, numChunks D = m + 1 := ⟨numChunks D - 1, by omega⟩
    rw [hmap, hm, List.range_succ, List.map_append]
    simp only [List.map_cons, List.map_nil, List.getLast?_concat, Option.map_some']
    have hend : chunkStart m + chunkDuration D m = D := by
      rw [numChunks_eq] at hm
      rw [chunkDuration_eq]
      by_cases h0 : m = 0
      · subst h0
        rw [chunkStart_zero]
        omega
      · rw [chunkStart_of_ne m h0]
        omega
    rw [hend]

/-- Witness for `C1_planner_coverage` at `D = 1500` (which satisfies
the amended hypotheses: `1500 mod 600 = 300 ≤ 570`): the last emitted
window ends exactly at 1500. -/
theorem C1_planner_coverage_witness :
    Option.map Prod.snd (planChunks 1500).getLast? = some 1500 :=
  (C1_planner_coverage 1500 (by decide) (by decide)).2.2

/-- Counterexample to claim C1 as frozen.  At `D = 1500` the planner
emits `[0,600), [570,1170), [1170,1500)`: the second adjacent pair has
`start_2 = end_1 = 1170`, so `start_i < end_{i-1}` "by exactly O"
fails.  Moreover `D = 5 > 0` yields no windows at all, and at
`D = 1200` the last emitted end offset is 1170, not `D`, leaving
`[1170, 1200)` uncovered. -/
theorem C1_counterexample :
    planChunks 1500 = [(0, 600), (570, 1170), (1170, 1500)]
    ∧ ¬ (∀ i, ∀ h : i + 1 < (planChunks 1500).length,
          ((planChunks 1500).get ⟨i + 1, h⟩).1 < ((planChunks 1500).get ⟨i, Nat.lt_of_succ_lt h⟩).2
          ∧ ((planChunks 1500).get ⟨i, Nat.lt_of_succ_lt h⟩).2
              - ((planChunks 1500).get ⟨i + 1, h⟩).1 = OVERLAP_DURATION)
    ∧ planChunks 5 = []
    ∧ Option.map Prod.snd (planChunks 1200).getLast? = some 1170 := by
  refine ⟨by decide, ?_, by decide, by decide⟩
  intro hclaim
  exact absurd (hclaim 1 (by decide)) (by decide)

/-- Claim C4.  The code disagrees with the claim: at `D = 1500`
(`L = 600`, `O = 30`) the planner emits 3 windows `[0,600)`,
`[570,1170)` and `[1170,1500)` — not `[1140,1500)` as claimed: the
third chunk starts at `2·600 − 30 = 1170`, has duration 330 (not 360),
and overlaps the second chunk by 0 seconds (not 30).  The code
contradicts its own comment ("Subsequent chunks overlap by
OVERLAP_DURATION seconds", chunker lines 93–94) as well as the spec's
worked example, so this is recorded as a code bug; this theorem
evaluates the code at the failing input. -/
theorem C4_planner_at_1500 :
    planChunks 1500 = [(0, 600), (570, 1170), (1170, 1500)]
    ∧ planChunks 1500 ≠ [(0, 600), (570, 1170), (1140, 1500)] := by decide

/-- Claim C9.  Every emitted window is at least 10 seconds long — any
candidate whose computed duration is below 10 is omitted by the skip
rule — and the planner output for `D = 5` is empty. -/
theorem C9_min_duration :
    (∀ D p, p ∈ planChunks D → 10 ≤ p.2 - p.1) ∧ planChunks 5 = [] := by
  constructor
  · intro D p hp
    unfold planChunks at hp
    rw [List.mem_map] at hp
    obtain ⟨i, hi, rfl⟩ := hp
    rw [List.mem_filter] at hi
    have h2 := of_decide_eq_true hi.2
    simp only
    omega
  · decide

/-- Witness for `C9_min_duration` at `D = 1500` and the first emitted
window `[0, 600)`. -/
theorem C9_min_duration_witness :
    ((0, 600) ∈ planChunks 1500) ∧ 10 ≤ ((0, 600) : Nat × Nat).2 - ((0, 600) : Nat × Nat).1 :=
  ⟨by decide, C9_min_duration.1 1500 (0, 600) (by decide)⟩

/-! ## Claims about the retry loops -/

/-- Claim C6.  For a provider call that fails on every attempt with an
HTTP 429 rate-limit error, `transcribe_audio`'s loop makes exactly 3
attempts, sleeps 2 s after the first failure and 4 s after the second,
re-raises the final error, and the owning handler returns a
`status = 'failed'` result with the error message instead of letting
the exception propagate. -/
theorem C6_retry_backoff (msgs : Nat → String) (h : ∀ i, strContains (msgs i) "429" = true) :
    (transcribeAudioLoop (fun i => CallOutcome.fail (msgs i))).attempts = 3
    ∧ (transcribeAudioLoop (fun i => CallOutcome.fail (msgs i))).sleeps = [2, 4]
    ∧ (transcribeAudioLoop (fun i => CallOutcome.fail (msgs i))).result = Except.error (msgs 2)
    ∧ transcriberHandler (fun i => CallOutcome.fail (msgs i))
        = { status := "failed", error := some (msgs 2) } := by
  have hr : ∀ i, transcriberRetryable (msgs i) = true := by
    intro i
    simp [transcriberRetryable, h i]
  simp [transcriberHandler, transcribeAudioLoop, runRetryAux, maxRetries, retryDelay, hr]

/-- Witness for `C6_retry_backoff` with the concrete message
`"Error code: 429 - Rate limit reached"` on every attempt. -/
theorem C6_retry_backoff_witness :
    (transcribeAudioLoop (fun _ => CallOutcome.fail "Error code: 429 - Rate limit reached")).attempts = 3
    ∧ (transcribeAudioLoop (fun _ => CallOutcome.fail "Error code: 429 - Rate limit reached")).sleeps = [2, 4]
    ∧ (transcribeAudioLoop (fun _ => CallOutcome.fail "Error code: 429 - Rate limit reached")).result
        = Except.error "Error code: 429 - Rate limit reached"
    ∧ transcriberHandler (fun _ => CallOutcome.fail "Error code: 429 - Rate limit reached")
        = { status := "failed", error := some "Error code: 429 - Rate limit reached" } :=
  C6_retry_backoff (fun _ => "Error code: 429 - Rate limit reached")
    (fun _ => by
      show strContains "Error code: 429 - Rate limit reached" "429" = true
      decide)

/-- Claim C2.  The claim is right and the code is wrong: both retry
loops re-raise only when `attempt == max_retries - 1`, so an error
classified as non-retryable (here an HTTP 401 message, matching none
of the rate-limit or server-fault substrings) does NOT fail
immediately — the loop silently runs all 3 provider attempts (with no
backoff sleep) and surfaces the error only after the last one; a
non-retryable first failure is even followed by a successful second
attempt.  This contradicts the transcriber's own comment at line 80,
"If it's the last attempt or a different error, raise".  This theorem
evaluates both loops at the failing input. -/
theorem C2_nonretryable_retried :
    (transcribeAudioLoop (fun _ => CallOutcome.fail "Error code: 401 - Incorrect API key provided")).attempts = 3
    ∧ (transcribeAudioLoop (fun _ => CallOutcome.fail "Error code: 401 - Incorrect API key provided")).sleeps = []
    ∧ (transcribeAudioLoop (fun _ => CallOutcome.fail "Error code: 401 - Incorrect API key provided")).result
        = Except.error "Error code: 401 - Incorrect API key provided"
    ∧ (generateSummaryLoop (fun _ => CallOutcome.fail "Error code: 401 - Incorrect API key provided")).attempts = 3
    ∧ (generateSummaryLoop (fun _ => CallOutcome.fail "Error code: 401 - Incorrect API key provided")).sleeps = []
    ∧ (transcribeAudioLoop (fun i => if i = 0 then
          CallOutcome.fail "Error code: 401 - Incorrect API key provided"
        else CallOutcome.ok "transcript")).attempts = 2
    ∧ (transcribeAudioLoop (fun i => if i = 0 then
          CallOutcome.fail "Error code: 401 - Incorrect API key provided"
        else CallOutcome.ok "transcript")).result = Except.ok "transcript" := by
  refine ⟨?_, ?_, ?_, ?_, ?_, ?_, ?_⟩ <;> decide

/-! ## Claims about deduplication -/

/-- Claim C3, corrected.  The claim as frozen says a duplicate is
merged into the accepted item attaining the maximum similarity; the
code instead merges into the FIRST accepted item (in acceptance order)
whose similarity strictly exceeds the 0.8 threshold and stops scanning
(see `C3_counterexample`).  Amended statement: during deduplication
(a left fold of `insertActionItem`), an incoming item with no accepted
item exceeding the threshold is appended; otherwise it is discarded
and merged into the first accepted item exceeding the threshold,
where the merge never changes the accepted action text, fills
`owner` / `due_date` from the incoming item only when the incoming
value is non-default and the accepted value still holds the default
(`"Unassigned"` / `"Not specified"`), never overwrites a non-default
accepted value, and adds mention metadata only if absent. -/
theorem C3_dedup_merge :
    (∀ items, deduplicate_action_items items = items.foldl insertActionItem [])
    ∧ (∀ acc item, (∀ e ∈ acc, similarity item.action e.action ≤ similarityThreshold) →
        insertActionItem acc item = acc ++ [item])
    ∧ (∀ pre e post item, (∀ x ∈ pre, similarity item.action x.action ≤ similarityThreshold) →
        similarityThreshold < similarity item.action e.action →
        insertActionItem (pre ++ e :: post) item = pre ++ mergeInto e item :: post)
    ∧ (∀ e item, (mergeInto e item).action = e.action)
    ∧ (∀ e item, item.owner ≠ "Unassigned" → e.owner = "Unassigned" →
        (mergeInto e item).owner = item.owner)
    ∧ (∀ e item, e.owner ≠ "Unassigned" → (mergeInto e item).owner = e.owner)
    ∧ (∀ e item, item.due_date ≠ "Not specified" → e.due_date = "Not specified" →
        (mergeInto e item).due_date = item.due_date)
    ∧ (∀ e item, e.due_date ≠ "Not specified" → (mergeInto e item).due_date = e.due_date)
    ∧ (∀ e item, e.mentioned_at.isSome = true →
        (mergeInto e item).mentioned_at = e.mentioned_at) := by
  refine ⟨fun _ => rfl, ?_, ?_, ?_, ?_, ?_, ?_, ?_, ?_⟩
  · intro acc item h
    induction acc with
    | nil => rfl
    | cons e rest ih =>
      have he := h e (List.mem_cons_self e rest)
      unfold insertActionItem
      rw [if_neg (not_lt.mpr he)]
      rw [List.cons_append]
      congr 1
      exact ih (fun x hx => h x (List.mem_cons_of_mem e hx))
  · intro pre e post item hpre hgt
    induction pre with
    | nil =>
      simp only [List.nil_append]
      unfold insertActionItem
      rw [if_pos hgt]
    | cons x xs ih =>
      have hx := hpre x (List.mem_cons_self x xs)
      simp only [List.cons_append]
      unfold insertActionItem
      rw [if_neg (not_lt.mpr hx)]
      congr 1
      exact ih (fun y hy => hpre y (List.mem_cons_of_mem x hy))
  · intro e item
    simp only [mergeInto]
    split_ifs <;> rfl
  · intro e item h1 h2
    simp only [mergeInto]
    split_ifs <;> simp_all
  · intro e item h1
    simp only [mergeInto]
    split_ifs <;> simp_all
  · intro e item h1 h2
    simp only [mergeInto]
    split_ifs <;> simp_all
  · intro e item h1
    simp only [mergeInto]
    split_ifs <;> simp_all
  · intro e item h1
    simp only [mergeInto]
    split_ifs <;> simp_all

/-- Witness for `C3_dedup_merge`: an incoming item not similar to the
single accepted item is appended as a new accepted item. -/
theorem C3_dedup_merge_witness :
    insertActionItem [dedupItemA] dedupItemUnrelated = [dedupItemA, dedupItemUnrelated] :=
  C3_dedup_merge.2.1 [dedupItemA] dedupItemUnrelated
    (fun e he => by
      rcases List.mem_singleton.mp he with rfl
      decide)

/-- Counterexample to claim C3 as frozen.  With accepted items
`"send the deck"` then `"send the deck out now"` and incoming
`"send the deck out"` (owner `"Sarah"`), the incoming item's
similarity exceeds 0.8 against both accepted items and is maximal
against the second (13/15 ≈ 0.867 < 17/19 ≈ 0.895), yet the code
merges into the first: the output's first item gains owner `"Sarah"`
while the maximal-similarity item keeps `"Unassigned"` — not the
output the claim prescribes. -/
theorem C3_counterexample :
    similarityThreshold < similarity dedupItemC.action dedupItemA.action
    ∧ similarity dedupItemC.action dedupItemA.action
        < similarity dedupItemC.action dedupItemB.action
    ∧ similarity dedupItemB.action dedupItemA.action ≤ similarityThreshold
    ∧ deduplicate_action_items [dedupItemA, dedupItemB, dedupItemC]
        = [{ dedupItemA with owner := "Sarah" }, dedupItemB]
    ∧ deduplicate_action_items [dedupItemA, dedupItemB, dedupItemC]
        ≠ [dedupItemA, { dedupItemB with owner := "Sarah" }] := by
  refine ⟨?_, ?_, ?_, ?_, ?_⟩ <;> decide

/-! ## Claims about the summary-response parser -/

theorem parseFields_owner_const :
    ∀ (parts : List String) (d : ActionItem),
      (∀ p ∈ parts, pyStartsWith (pyStrip p) "Owner:" = false) →
      (parts.foldl parseFieldStep d).owner = d.owner := by
  intro parts
  induction parts with
  | nil => intro d _; rfl
  | cons p ps ih =>
    intro d h
    have hp := h p (List.mem_cons_self p ps)
    have hrest : ∀ q ∈ ps, pyStartsWith (pyStrip q) "Owner:" = false :=
      fun q hq => h q (List.mem_cons_of_mem p hq)
    rw [List.foldl_cons, ih (parseFieldStep d p) hrest]
    simp only [parseFieldStep]
    split_ifs with h1 h2 h3 <;> simp_all

theorem parseFields_due_const :
    ∀ (parts : List String) (d : ActionItem),
      (∀ p ∈ parts, pyStartsWith (pyStrip p) "Due:" = false) →
      (parts.foldl parseFieldStep d).due_date = d.due_date := by
  intro parts
  induction parts with
  | nil => intro d _; rfl
  | cons p ps ih =>
    intro d h
    have hp := h p (List.mem_cons_self p ps)
    have hrest : ∀ q ∈ ps, pyStartsWith (pyStrip q) "Due:" = false :=
      fun q hq => h q (List.mem_cons_of_mem p hq)
    rw [List.foldl_cons, ih (parseFieldStep d p) hrest]
    simp only [parseFieldStep]
    split_ifs with h1 h2 h3 <;> simp_all

/-- Claim C8.  The parser never fails the stage: with the section
marker absent, the whole response becomes the summary and no action
items are emitted; a line yields an item only if it begins (after
stripping) with a bullet marker; pipe-delimited `Action:` / `Owner:` /
`Due:` fields populate `action` / `owner` / `due_date`; a missing
`Owner:` (resp. `Due:`) field leaves the default `"Unassigned"`
(resp. `"Not specified"`); a line producing empty action text is
dropped silently. -/
theorem C8_parser_tolerant :
    (∀ t, pySplit t "ACTION ITEMS:" = [t] →
        parse_summary_response t = { summary := t, action_items := [] })
    ∧ (∀ line, (parseActionLine line).isSome = true →
        (pyStartsWith (pyStrip line) "-" = true ∨ pyStartsWith (pyStrip line) "•" = true))
    ∧ (∀ line d, parseActionLine line = some d → d.action ≠ "")
    ∧ (∀ parts, (∀ p ∈ parts, pyStartsWith (pyStrip p) "Owner:" = false) →
        (parseFields parts).owner = "Unassigned")
    ∧ (∀ parts, (∀ p ∈ parts, pyStartsWith (pyStrip p) "Due:" = false) →
        (parseFields parts).due_date = "Not specified")
    ∧ (∀ d p, pyStartsWith (pyStrip p) "Action:" = true →
        parseFieldStep d p = { d with action := pyStrip (pyReplace (pyStrip p) "Action:" "") })
    ∧ (∀ d p, pyStartsWith (pyStrip p) "Action:" = false →
        pyStartsWith (pyStrip p) "Owner:" = true →
        parseFieldStep d p = { d with owner := pyStrip (pyReplace (pyStrip p) "Owner:" "") })
    ∧ (∀ d p, pyStartsWith (pyStrip p) "Action:" = false →
        pyStartsWith (pyStrip p) "Owner:" = false →
        pyStartsWith (pyStrip p) "Due:" = true →
        parseFieldStep d p = { d with due_date := pyStrip (pyReplace (pyStrip p) "Due:" "") })
    ∧ (∀ t p0 p1, pySplit t "ACTION ITEMS:" = [p0, p1] →
        pyLower (pyStrip p1) ≠ "none" →
        parse_summary_response t =
          { summary := pyStrip (pyReplace p0 "SUMMARY:" ""),
            action_items := (pySplit (pyStrip p1) "\n").filterMap parseActionLine }) := by
  refine ⟨?_, ?_, ?_, ?_, ?_, ?_, ?_, ?_, ?_⟩
  · intro t h
    unfold parse_summary_response
    rw [h]
  · intro line h
    simp only [parseActionLine] at h
    by_cases hb : (pyStartsWith (pyStrip line) "-" || pyStartsWith (pyStrip line) "•") = true
    · simpa using hb
    · rw [if_neg hb] at h
      simp at h
  · intro line d h
    simp only [parseActionLine] at h
    split_ifs at h with h1 h2
    injection h with h3
    rw [← h3]
    exact h2
  · intro parts h
    exact parseFields_owner_const parts defaultActionItem h
  · intro parts h
    exact parseFields_due_const parts defaultActionItem h
  · intro d p h
    simp only [parseFieldStep]
    rw [if_pos h]
  · intro d p h1 h2
    simp only [parseFieldStep]
    rw [if_neg (by simp [h1]), if_pos h2]
  · intro d p h1 h2 h3
    simp only [parseFieldStep]
    rw [if_neg (by simp [h1]), if_neg (by simp [h2]), if_pos h3]
  · intro t p0 p1 hsplit hnone
    unfold parse_summary_response
    rw [hsplit]
    simp only [if_neg hnone]

/-- Witness for `C8_parser_tolerant` on a response with no
`ACTION ITEMS:` marker. -/
theorem C8_parser_tolerant_witness :
    parse_summary_response "The team discussed budget only." =
      { summary := "The team discussed budget only.", action_items := [] } :=
  C8_parser_tolerant.1 "The team discussed budget only." (by decide)

/-! ## Claims about the merge stage -/

theorem insertSortedBy_perm (le : α → α → Bool) (x : α) (l : List α) :
    (insertSortedBy le x l).Perm (x :: l) := by
  induction l with
  | nil => exact List.Perm.refl _
  | cons y ys ih =>
    unfold insertSortedBy
    by_cases hle : le y x = true
    · rw [if_pos hle]
      exact (ih.cons y).trans (List.Perm.swap x y ys)
    · rw [if_neg hle]

theorem stableSortBy_perm_aux (le : α → α → Bool) :
    ∀ (l acc : List α), (l.foldl (fun a x => insertSortedBy le x a) acc).Perm (acc ++ l) := by
  intro l
  induction l with
  | nil => intro acc; simp
  | cons x xs ih =>
    intro acc
    have h1 := ih (insertSortedBy le x acc)
    have h2 : (insertSortedBy le x acc ++ xs).Perm (acc ++ x :: xs) := by
      refine ((insertSortedBy_perm le x acc).append_right xs).trans ?_
      exact List.perm_middle.symm
    exact h1.trans h2

theorem stableSortBy_perm (le : α → α → Bool) (l : List α) :
    (stableSortBy le l).Perm l := by
  have := stableSortBy_perm_aux le l []
  simpa [stableSortBy] using this

theorem insertSortedBy_pairwise (le : α → α → Bool)
    (htrans : ∀ a b c, le a b = true → le b c = true → le a c = true)
    (htot : ∀ a b, le a b = true ∨ le b a = true)
    (x : α) (l : List α) (h : l.Pairwise (fun a b => le a b = true)) :
    (insertSortedBy le x l).Pairwise (fun a b => le a b = true) := by
  induction l with
  | nil => simp [insertSortedBy]
  | cons y ys ih =>
    rw [List.pairwise_cons] at h
    unfold insertSortedBy
    by_cases hle : le y x = true
    · rw [if_pos hle]
      rw [List.pairwise_cons]
      refine ⟨?_, ih h.2⟩
      intro z hz
      have hz2 : z ∈ x :: ys := (insertSortedBy_perm le x ys).mem_iff.mp hz
      rcases List.mem_cons.mp hz2 with hzx | hmem
      · rw [hzx]; exact hle
      · exact h.1 z hmem
    · rw [if_neg hle]
      have hxy : le x y = true := by
        rcases htot x y with h1 | h1
        · exact h1
        · exact absurd h1 hle
      rw [List.pairwise_cons]
      refine ⟨?_, List.pairwise_cons.mpr h⟩
      intro z hz
      rcases List.mem_cons.mp hz with hzy | hmem
      · rw [hzy]; exact hxy
      · exact htrans x y z hxy (h.1 z hmem)

theorem stableSortBy_pairwise_aux (le : α → α → Bool)
    (htrans : ∀ a b c, le a b = true → le b c = true → le a c = true)
    (htot : ∀ a b, le a b = true ∨ le b a = true) :
    ∀ (l acc : List α), acc.Pairwise (fun a b => le a b = true) →
      (l.foldl (fun a x => insertSortedBy le x a) acc).Pairwise (fun a b => le a b = true) := by
  intro l
  induction l with
  | nil => intro acc hacc; simpa using hacc
  | cons x xs ih =>
    intro acc hacc
    exact ih _ (insertSortedBy_pairwise le htrans htot x acc hacc)

theorem stableSortBy_pairwise (le : α → α → Bool)
    (htrans : ∀ a b c, le a b = true → le b c = true → le a c = true)
    (htot : ∀ a b, le a b = true ∨ le b a = true) (l : List α) :
    (stableSortBy le l).Pairwise (fun a b => le a b = true) :=
  stableSortBy_pairwise_aux le htrans htot l [] List.Pairwise.nil

theorem chunkLe_trans : ∀ a b c, chunkLe a b = true → chunkLe b c = true → chunkLe a c = true := by
  intro a b c h1 h2
  simp only [chunkLe, decide_eq_true_iff] at h1 h2 ⊢
  omega

theorem chunkLe_total : ∀ a b, chunkLe a b = true ∨ chunkLe b a = true := by
  intro a b
  simp only [chunkLe, decide_eq_true_iff]
  omega

/-- Claim C7.  The combined narrative depends only on chunk index,
never on arrival order: for any two arrival orders of the same
successful summaries (with, as the planner guarantees, pairwise
distinct chunk indices), the merge produces the same narrative; the
underlying entry order is ascending in chunk index; and each entry is
rendered as `"[time_range] summary_text"`. -/
theorem C7_narrative_order (ss₁ ss₂ : List SummaryEntry) (hperm : ss₁.Perm ss₂)
    (hnodup : ((successfulSummaries ss₁).map SummaryEntry.chunk_id).Nodup) :
    combinedNarrative (successfulSorted ss₁) = combinedNarrative (successfulSorted ss₂)
    ∧ ((successfulSorted ss₁).map SummaryEntry.chunk_id).Sorted (· ≤ ·)
    ∧ combinedNarrative (successfulSorted ss₁)
        = pyJoin "\n\n" ((successfulSorted ss₁).map renderSummary) := by
  have hfp : (successfulSummaries ss₁).Perm (successfulSummaries ss₂) := hperm.filter _
  have hp₁ : (successfulSorted ss₁).Perm (successfulSummaries ss₁) :=
    stableSortBy_perm chunkLe _
  have hp₂ : (successfulSorted ss₂).Perm (successfulSummaries ss₂) :=
    stableSortBy_perm chunkLe _
  have hperm₁₂ : (successfulSorted ss₁).Perm (successfulSorted ss₂) :=
    (hp₁.trans hfp).trans hp₂.symm
  have hs₁ : (successfulSorted ss₁).Pairwise (fun a b => chunkLe a b = true) :=
    stableSortBy_pairwise chunkLe chunkLe_trans chunkLe_total _
  have hs₂ : (successfulSorted ss₂).Pairwise (fun a b => chunkLe a b = true) :=
    stableSortBy_pairwise chunkLe chunkLe_trans chunkLe_total _
  have hne_filter : (successfulSummaries ss₁).Pairwise
      (fun a b => a.chunk_id ≠ b.chunk_id) := by
    rw [List.Nodup, List.pairwise_map] at hnodup
    exact hnodup
  have hne₁ : (successfulSorted ss₁).Pairwise (fun a b => a.chunk_id ≠ b.chunk_id) :=
    (hp₁.pairwise_iff (fun h => Ne.symm h)).mpr hne_filter
  have hne₂ : (successfulSorted ss₂).Pairwise (fun a b => a.chunk_id ≠ b.chunk_id) :=
    (hperm₁₂.pairwise_iff (fun h => Ne.symm h)).mp hne₁
  have hlt₁ : (successfulSorted ss₁).Pairwise
      (fun a b => a.chunk_id < b.chunk_id) :=
    (hs₁.and hne₁).imp (fun hab => by
      have h1 := hab.1
      have h2 := hab.2
      simp only [chunkLe, decide_eq_true_iff] at h1
      omega)
  have hlt₂ : (successfulSorted ss₂).Pairwise
      (fun a b => a.chunk_id < b.chunk_id) :=
    (hs₂.and hne₂).imp (fun hab => by
      have h1 := hab.1
      have h2 := hab.2
      simp only [chunkLe, decide_eq_true_iff] at h1
      omega)
  haveI : IsAntisymm SummaryEntry (fun a b => a.chunk_id < b.chunk_id) :=
    ⟨fun a b h1 h2 => absurd h2 (by omega)⟩
  have heq : successfulSorted ss₁ = successfulSorted ss₂ :=
    List.eq_of_perm_of_sorted hperm₁₂ hlt₁ hlt₂
  refine ⟨by rw [heq], ?_, rfl⟩
  show ((successfulSorted ss₁).map SummaryEntry.chunk_id).Pairwise (· ≤ ·)
  rw [List.pairwise_map]
  exact hs₁.imp (fun hab => by simpa [chunkLe] using hab)

/-- Witness for `C7_narrative_order`: summaries arriving in chunk
order `[2, 0, 1]` produce the same narrative as when arriving in order
`[0, 1, 2]`, and that narrative lists the chunks ascending. -/
theorem C7_narrative_order_witness :
    combinedNarrative (successfulSorted [orderEntry2, orderEntry0, orderEntry1])
        = combinedNarrative (successfulSorted [orderEntry0, orderEntry1, orderEntry2])
    ∧ combinedNarrative (successfulSorted [orderEntry2, orderEntry0, orderEntry1])
        = "[00:00 - 10:00] First.\n\n[09:30 - 19:30] Second.\n\n[19:00 - 25:00] Third." :=
  ⟨(C7_narrative_order [orderEntry2, orderEntry0, orderEntry1]
      [orderEntry0, orderEntry1, orderEntry2] (by decide) (by decide)).1,
   by decide⟩

theorem combineResult_error (ts : List TranscriptEntry) (ss : List SummaryEntry)
    (h : successfulSummaries ss = []) :
    combineResult ts ss = Except.error "No successful summaries to combine" := by
  unfold combineResult
  rw [h]
  rfl

theorem combineResult_ok (ts : List TranscriptEntry) (ss : List SummaryEntry)
    (h : (successfulSummaries ss).isEmpty = false) :
    combineResult ts ss = Except.ok (combineOkResult ts ss) := by
  unfold combineResult
  rw [h]
  rfl

/-- Claim C5.  If no summary entry has `status = 'success'`, the merge
raises the no-successful-units error and the job record ends
`("failed", error_stage = "result_combination")`; with at least one
success (even among failures), the merge proceeds on exactly the
successful entries and the job record reaches `("completed", -)`. -/
theorem C5_merge_gate (ts : List TranscriptEntry) (ss : List SummaryEntry) :
    (successfulSummaries ss = [] →
        combineResult ts ss = Except.error "No successful summaries to combine"
        ∧ jobRecordAfterMerge ts ss = ("failed", some "result_combination"))
    ∧ ((∃ s ∈ ss, s.status = "success") →
        combineResult ts ss = Except.ok (combineOkResult ts ss)
        ∧ (combineOkResult ts ss).final_summary = combinedNarrative (successfulSorted ss)
        ∧ jobRecordAfterMerge ts ss = ("completed", none)) := by
  constructor
  · intro hempty
    have h1 := combineResult_error ts ss hempty
    refine ⟨h1, ?_⟩
    unfold jobRecordAfterMerge
    rw [h1]
    rfl
  · rintro ⟨s, hs, hstat⟩
    have hmem : s ∈ successfulSummaries ss := List.mem_filter.mpr ⟨hs, by simp [hstat]⟩
    have hne : (successfulSummaries ss).isEmpty = false := by
      cases hl : successfulSummaries ss with
      | nil => rw [hl] at hmem; cases hmem
      | cons a l => rfl
    have h1 := combineResult_ok ts ss hne
    refine ⟨h1, rfl, ?_⟩
    unfold jobRecordAfterMerge
    rw [h1]

/-- Witness for `C5_merge_gate`: a job whose only summary failed ends
failed at stage `result_combination`; a job with one failed and one
successful summary completes. -/
theorem C5_merge_gate_witness :
    jobRecordAfterMerge [] [sampleFailedSummary] = ("failed", some "result_combination")
    ∧ jobRecordAfterMerge [] [sampleFailedSummary, sampleSuccessSummary] = ("completed", none) :=
  ⟨((C5_merge_gate [] [sampleFailedSummary]).1 (by decide)).2,
   ((C5_merge_gate [] [sampleFailedSummary, sampleSuccessSummary]).2
      ⟨sampleSuccessSummary, by decide, rfl⟩).2.2⟩

theorem foldlAddQ_const (f : α → Option ℚ) :
    ∀ (l : List α) (acc : ℚ), (∀ x ∈ l, f x = none) →
      l.foldl (fun a x => a + ((f x).getD 0)) acc = acc := by
  intro l
  induction l with
  | nil => intro acc _; rfl
  | cons x xs ih =>
    intro acc h
    have hx : f x = none := h x (List.mem_cons_self x xs)
    have hrest : ∀ y ∈ xs, f y = none := fun y hy => h y (List.mem_cons_of_mem x hy)
    simp only [List.foldl_cons, hx, Option.getD_none, add_zero]
    exact ih acc hrest

theorem foldlAddNat_const (f : α → Option Nat) :
    ∀ (l : List α) (acc : Nat), (∀ x ∈ l, f x = none) →
      l.foldl (fun a x => a + ((f x).getD 0)) acc = acc := by
  intro l
  induction l with
  | nil => intro acc _; rfl
  | cons x xs ih =>
    intro acc h
    have hx : f x = none := h x (List.mem_cons_self x xs)
    have hrest : ∀ y ∈ xs, f y = none := fun y hy => h y (List.mem_cons_of_mem x hy)
    simp only [List.foldl_cons, hx, Option.getD_none, Nat.add_zero]
    exact ih acc hrest

theorem sumOptQ_zero (f : α → Option ℚ) (l : List α) (h : ∀ x ∈ l, f x = none) :
    sumOptQ f l = 0 :=
  foldlAddQ_const f l 0 h

theorem sumOptNat_zero (f : α → Option Nat) (l : List α) (h : ∀ x ∈ l, f x = none) :
    sumOptNat f l = 0 :=
  foldlAddNat_const f l 0 h

theorem roundTo_zero (n : Nat) : roundTo n 0 = 0 := by
  unfold roundTo
  rw [zero_mul, zero_add]
  rw [show Rat.floor (mkRat 1 2) = 0 from by decide]
  exact Rat.zero_mkRat _

/-- Claim C10 (implicit).  The summarizer's success result carries no
`cost`, `prompt_tokens`, `completion_tokens` or
`processing_time_seconds` keys, and the combiner reads exactly those
keys with default 0: so for any job whose summary entries all come
from the summarizer's success path, the final result's
summarization cost, prompt/completion/total token counts and
summarization time are all 0. -/
theorem C10_zero_metrics (ts : List TranscriptEntry) (ss : List SummaryEntry)
    (h : ∀ s ∈ ss, ∃ cid tr sm ai, s = summarizerSuccessEntry cid tr sm ai) :
    ∀ r, combineResult ts ss = Except.ok r →
      r.summarization_cost = 0 ∧ r.prompt_tokens = 0 ∧ r.completion_tokens = 0
        ∧ r.total_tokens = 0 ∧ r.summarization_time_seconds = 0 := by
  intro r hr
  have hnone : ∀ s ∈ successfulSorted ss,
      s.cost = none ∧ s.prompt_tokens = none ∧ s.completion_tokens = none
        ∧ s.processing_time_seconds = none := by
    intro s hs
    have hs1 : s ∈ successfulSummaries ss :=
      (stableSortBy_perm chunkLe (successfulSummaries ss)).mem_iff.mp hs
    have hs2 : s ∈ ss := List.mem_of_mem_filter hs1
    obtain ⟨cid, tr, sm, ai, rfl⟩ := h s hs2
    exact ⟨rfl, rfl, rfl, rfl⟩
  have hc : sumOptQ SummaryEntry.cost (successfulSorted ss) = 0 :=
    sumOptQ_zero _ _ (fun s hs => (hnone s hs).1)
  have hp : sumOptNat SummaryEntry.prompt_tokens (successfulSorted ss) = 0 :=
    sumOptNat_zero _ _ (fun s hs => (hnone s hs).2.1)
  have hct : sumOptNat SummaryEntry.completion_tokens (successfulSorted ss) = 0 :=
    sumOptNat_zero _ _ (fun s hs => (hnone s hs).2.2.1)
  have ht : sumOptQ SummaryEntry.processing_time_seconds (successfulSorted ss) = 0 :=
    sumOptQ_zero _ _ (fun s hs => (hnone s hs).2.2.2)
  by_cases hemp : (successfulSummaries ss).isEmpty = true
  · unfold combineResult at hr
    rw [if_pos hemp] at hr
    simp at hr
  · have hne : (successfulSummaries ss).isEmpty = false := by
      simpa using hemp
    rw [combineResult_ok ts ss hne] at hr
    injection hr with h2
    subst h2
    refine ⟨?_, ?_, ?_, ?_, ?_⟩
    · show roundTo 4 (sumOptQ SummaryEntry.cost (successfulSorted ss)) = 0
      rw [hc, roundTo_zero]
    · exact hp
    · exact hct
    · show sumOptNat SummaryEntry.prompt_tokens (successfulSorted ss)
          + sumOptNat SummaryEntry.completion_tokens (successfulSorted ss) = 0
      rw [hp, hct]
    · show roundTo 1 (sumOptQ SummaryEntry.processing_time_seconds (successfulSorted ss)) = 0
      rw [ht, roundTo_zero]

/-- Witness for `C10_zero_metrics` on a one-chunk job whose summary
entry was produced by the summarizer's success path. -/
theorem C10_zero_metrics_witness :
    (combineOkResult [] [sampleProducedEntry]).summarization_cost = 0
    ∧ (combineOkResult [] [sampleProducedEntry]).prompt_tokens = 0
    ∧ (combineOkResult [] [sampleProducedEntry]).completion_tokens = 0
    ∧ (combineOkResult [] [sampleProducedEntry]).total_tokens = 0
    ∧ (combineOkResult [] [sampleProducedEntry]).summarization_time_seconds = 0 :=
  C10_zero_metrics [] [sampleProducedEntry]
    (fun s hs => ⟨0, "00:00 - 10:00", "Quiet segment.", [], List.mem_singleton.mp hs⟩)
    (combineOkResult [] [sampleProducedEntry])
    (combineResult_ok [] [sampleProducedEntry] (by decide))
